import Mathlib

/-!
Shallow embedding of `internal/fakeserver/fakeserver.go` and the
configuration-resolution part of `internal/provider/provider.go` from the
`terraform-provider-gsolaceclustermgr` repository, together with theorems
settling the specification claims about them.

Modelling conventions:
* Go `time.Time` values are modelled as `Int` nanosecond timestamps
  (Go durations are int64 nanoseconds; `Duration.Seconds() > 5.0` on such a
  value is exactly `5*10^9 < ns` for every duration whose nanosecond count is
  float64-representable, and `5.0` itself is exact).
* A JSON body unmarshalled into `map[string]interface{}` is modelled as an
  association list from `String` to `GoValue`; reading an absent key yields
  the nil interface value, modelled as `GoValue.vnull` (JSON `null` also
  unmarshals to nil, so both collapse to `vnull` exactly as in Go).
* A failed Go type assertion (`v.(string)` on a non-string) panics; panicking
  paths are modelled as an explicit `Reply.panicked` outcome that leaves the
  store unchanged (in `handleCreate` the panic happens while the composite
  literal is evaluated, before the map assignment).
* The body bytes handed to a handler are `Option JObj`: `none` models bytes
  that `json.Unmarshal` rejects (not a JSON object), `some j` a successfully
  unmarshalled object.
-/

/-- A Go `interface{}` value produced by `json.Unmarshal`: nil, a string, a
number (Go decodes every JSON number as `float64`; modelled exactly as `Rat`),
a boolean, or some composite (array/object) value whose shape the claims never
inspect. -/
inductive GoValue where
  | vnull
  | vstr (s : String)
  | vnum (q : Rat)
  | vbool (b : Bool)
  | vcomposite
  deriving DecidableEq, Repr

/-- An unmarshalled JSON object (`map[string]interface{}`). -/
abbrev JObj := List (String × GoValue)

/-- Go map read `jObj[k]`: the nil interface value when the key is absent. -/
def jLook (jObj : JObj) (k : String) : GoValue :=
  match jObj with
  | [] => GoValue.vnull
  | (k', v) :: rest => if k' = k then v else jLook rest k

/-- Go type assertion `v.(string)`: `none` models the run-time panic on a
non-string value (including nil). -/
def goAssertString : GoValue → Option String
  | GoValue.vstr s => some s
  | _ => none

/-- `orDefault` from fakeserver.go: `if s != nil && s.(string) != "" { return
s.(string) }; return ds`.  A non-nil non-string value panics inside the
condition (`none`). -/
def orDefault (s : GoValue) (ds : String) : Option String :=
  match s with
  | GoValue.vnull => some ds
  | GoValue.vstr v => some (if v = "" then ds else v)
  | _ => none

/-- Truncation of a rational toward zero, the effect of Go's float-to-int
conversion for in-range values. -/
def ratTrunc (q : Rat) : Int :=
  if q < 0 then -((-q).floor) else q.floor

/-- Two's-complement reduction into the `int32` range.  Go leaves the
out-of-range float-to-int conversion implementation-specific; the wrap is one
faithful choice and no claim depends on it. -/
def wrap32 (n : Int) : Int :=
  (n + 2 ^ 31) % 2 ^ 32 - 2 ^ 31

/-- `orDefaultInt32` from fakeserver.go: `if s != nil { return
int32(s.(float64)) }; return ds`.  A non-nil non-number value panics
(`none`). -/
def orDefaultInt32 (s : GoValue) (ds : Int) : Option Int :=
  match s with
  | GoValue.vnull => some ds
  | GoValue.vnum q => some (wrap32 (ratTrunc q))
  | _ => none

/-- `ServiceInfo` from fakeserver.go.  `Created`/`Updated` are nanosecond
timestamps; the zero `time.Time` of a fresh struct is modelled as `0`. -/
structure ServiceInfo where
  ID : String
  ServiceClassId : String
  DatacenterId : String
  Name : String
  State : String
  MsgVpnName : String
  EventBrokerVersion : String
  CustomRouterName : String
  ClusterName : String
  MaxSpoolUsage : Int
  Created : Int
  Updated : Int
  ClientUsername : String
  ClientPassword : String
  deriving DecidableEq, Repr

/-- The server's object store, `map[string]ServiceInfo`, as an association
list with unique keys maintained by `storeInsert`/`storeErase`. -/
abbrev Store := List (String × ServiceInfo)

/-- Go map read `svr.objects[id]` (with its `ok` flag as `Option`). -/
def storeFind (st : Store) (k : String) : Option ServiceInfo :=
  match st with
  | [] => none
  | (k', v) :: rest => if k' = k then some v else storeFind rest k

/-- Go map write `svr.objects[k] = v`: overwrite the binding if present,
append otherwise. -/
def storeInsert (st : Store) (k : String) (v : ServiceInfo) : Store :=
  match st with
  | [] => [(k, v)]
  | (k', v') :: rest =>
      if k' = k then (k, v) :: rest else (k', v') :: storeInsert rest k v

/-- Go map delete `delete(svr.objects, k)`. -/
def storeErase (st : Store) (k : String) : Store :=
  match st with
  | [] => []
  | (k', v') :: rest =>
      if k' = k then storeErase rest k else (k', v') :: storeErase rest k

/-- The `data` object of the 202 response of `handleCreate`. -/
structure CreateData where
  id : String
  resourceId : String
  name : String
  createdTime : Int
  creationState : String
  deriving DecidableEq, Repr

/-- The `data` object of the 200 response of `handleGet` (the
`serviceLoginCredential` leaf is flattened into the two `cred` fields). -/
structure GetData where
  id : String
  name : String
  serviceClassId : String
  datacenterId : String
  createdTime : Int
  updatedTime : Int
  creationState : String
  eventBrokerServiceVersion : String
  clusterName : String
  primaryRouterName : String
  msgVpnName : String
  credUsername : String
  credPassword : String
  maxSpoolUsage : Int
  deriving DecidableEq, Repr

/-- The `data` object of the 200 response of `handlePatch` (it carries no
credential structure). -/
structure PatchData where
  id : String
  serviceClassId : String
  name : String
  createdTime : Int
  updatedTime : Int
  creationState : String
  eventBrokerServiceVersion : String
  clusterName : String
  primaryRouterName : String
  msgVpnName : String
  maxSpoolUsage : Int
  deriving DecidableEq, Repr

/-- The `data` object of the 202 response of `handleDelete`. -/
structure DeleteData where
  id : String
  resourceId : String
  name : String
  createdTime : Int
  status : String
  deriving DecidableEq, Repr

/-- The observable outcome the server writes for one request: an HTTP reply
or a handler panic. -/
inductive Reply where
  | panicked
  | notFound
  | serverError
  | createAccepted (d : CreateData)
  | getOk (d : GetData)
  | patchOk (d : PatchData)
  | deleteAccepted (d : DeleteData)
  deriving DecidableEq, Repr

/-- The HTTP status code carried by a reply (`none` for a panic, which
produces no ordinary reply). -/
def Reply.statusCode : Reply → Option Nat
  | Reply.panicked => none
  | Reply.notFound => some 404
  | Reply.serverError => some 500
  | Reply.createAccepted _ => some 202
  | Reply.getOk _ => some 200
  | Reply.patchOk _ => some 200
  | Reply.deleteAccepted _ => some 202

/-- `handleCreate` from fakeserver.go.  `sid` is the freshly generated UUID
(`uuid.New().String()` is environment nondeterminism, passed as an argument);
`now` is `time.Now()`.  Unmarshal failure answers 500; a type assertion on a
missing or wrongly-typed field panics; otherwise the new object is stored
under `sid` and a 202 reply is built. -/
def handleCreate (st : Store) (sid : String) (now : Int) (body : Option JObj) :
    Store × Reply :=
  match body with
  | none => (st, Reply.serverError)
  | some jObj =>
    match goAssertString (jLook jObj "name"),
        goAssertString (jLook jObj "serviceClassId"),
        goAssertString (jLook jObj "datacenterId"),
        orDefault (jLook jObj "clusterName") "test-cluster1",
        orDefault (jLook jObj "msgVpnName") "test-vpn1",
        orDefault (jLook jObj "eventBrokerVersion") "1.0.0",
        orDefault (jLook jObj "customRouterName") "test-router1",
        orDefaultInt32 (jLook jObj "maxSpoolUsage") 20 with
    | some nm, some sc, some dc, some cn, some vpn, some ver, some rn, some msu =>
      let sInfo : ServiceInfo :=
        { ID := sid
          Name := nm
          State := "PENDING"
          ServiceClassId := sc
          DatacenterId := dc
          ClusterName := cn
          MsgVpnName := vpn
          EventBrokerVersion := ver
          CustomRouterName := rn
          MaxSpoolUsage := msu
          Created := now
          Updated := 0
          ClientUsername := "client-user"
          ClientPassword := "client-passwd" }
      (storeInsert st sid sInfo,
       Reply.createAccepted
         { id := "O" ++ sInfo.ID
           resourceId := sInfo.ID
           name := sInfo.Name
           createdTime := sInfo.Created
           creationState := sInfo.State })
    | _, _, _, _, _, _, _, _ => (st, Reply.panicked)

/-- The PENDING-to-COMPLETED delay of `handleGet`:
`time.Since(sInfo.Created).Seconds() > 5.0` in nanoseconds. -/
def pastThreshold (now created : Int) : Prop :=
  5000000000 < now - created

instance (now created : Int) : Decidable (pastThreshold now created) := by
  unfold pastThreshold; infer_instance

/-- `handleGet` from fakeserver.go, on the `ServiceInfo` the dispatcher found
under `id`.  On a PENDING object it stamps `Updated := now`, completes the
creation once more than five seconds have passed since `Created`, and writes
the changed object back; then it answers 200 with the full representation,
credentials always included. -/
def handleGet (st : Store) (sInfo : ServiceInfo) (id : String) (now : Int) :
    Store × Reply :=
  let sInfo' :=
    if sInfo.State = "PENDING" then
      { sInfo with
        Updated := now
        State := if pastThreshold now sInfo.Created then "COMPLETED" else sInfo.State }
    else sInfo
  let st' := if sInfo.State = "PENDING" then storeInsert st id sInfo' else st
  (st',
   Reply.getOk
     { id := sInfo'.ID
       name := sInfo'.Name
       serviceClassId := sInfo'.ServiceClassId
       datacenterId := sInfo'.DatacenterId
       createdTime := sInfo'.Created
       updatedTime := sInfo'.Updated
       creationState := sInfo'.State
       eventBrokerServiceVersion := sInfo'.EventBrokerVersion
       clusterName := sInfo'.ClusterName
       primaryRouterName := sInfo'.CustomRouterName
       msgVpnName := sInfo'.MsgVpnName
       credUsername := sInfo'.ClientUsername
       credPassword := sInfo'.ClientPassword
       maxSpoolUsage := sInfo'.MaxSpoolUsage })

/-- `handlePatch` from fakeserver.go.  Unmarshal failure answers 500; the
`jObj["name"].(string)` assertion panics on a missing or non-string name;
otherwise only `Name`, `State` (to PENDING) and `Updated` change, the object
is written back, and a 200 reply without credentials is built. -/
def handlePatch (st : Store) (sInfo : ServiceInfo) (id : String)
    (body : Option JObj) (now : Int) : Store × Reply :=
  match body with
  | none => (st, Reply.serverError)
  | some jObj =>
    match goAssertString (jLook jObj "name") with
    | none => (st, Reply.panicked)
    | some nm =>
      let sInfo' := { sInfo with Name := nm, State := "PENDING", Updated := now }
      (storeInsert st id sInfo',
       Reply.patchOk
         { id := sInfo'.ID
           serviceClassId := sInfo'.ServiceClassId
           name := sInfo'.Name
           createdTime := sInfo'.Created
           updatedTime := sInfo'.Updated
           creationState := sInfo'.State
           eventBrokerServiceVersion := sInfo'.EventBrokerVersion
           clusterName := sInfo'.ClusterName
           primaryRouterName := sInfo'.CustomRouterName
           msgVpnName := sInfo'.MsgVpnName
           maxSpoolUsage := sInfo'.MaxSpoolUsage })

/-- `handleDelete` from fakeserver.go: remove the object unconditionally and
answer 202. -/
def handleDelete (st : Store) (sInfo : ServiceInfo) (id : String) :
    Store × Reply :=
  (storeErase st id,
   Reply.deleteAccepted
     { id := "O" ++ sInfo.ID
       resourceId := sInfo.ID
       name := sInfo.Name
       createdTime := sInfo.Created
       status := "PENDING" })

/-- One parsed request on the `/eventBrokerServices` subtree.  A create
carries the UUID the server will draw (environment nondeterminism) and the
unmarshalled body; the other methods carry the path id. -/
inductive Request where
  | create (sid : String) (body : Option JObj)
  | get (id : String)
  | patch (id : String) (body : Option JObj)
  | delete (id : String)
  deriving DecidableEq, Repr

/-- The dispatch of `handleBrokerServices` from fakeserver.go: create goes
straight to `handleCreate`; for an id-addressed request the object is looked
up first and a missing id answers 404 with the store untouched. -/
def handleBrokerServices (st : Store) (now : Int) (req : Request) :
    Store × Reply :=
  match req with
  | Request.create sid body => handleCreate st sid now body
  | Request.get id =>
    match storeFind st id with
    | none => (st, Reply.notFound)
    | some sInfo => handleGet st sInfo id now
  | Request.patch id body =>
    match storeFind st id with
    | none => (st, Reply.notFound)
    | some sInfo => handlePatch st sInfo id body now
  | Request.delete id =>
    match storeFind st id with
    | none => (st, Reply.notFound)
    | some sInfo => handleDelete st sInfo id

/-- The `creationState` field of a get reply, when the reply is one. -/
def Reply.getCreationState : Reply → Option String
  | Reply.getOk d => some d.creationState
  | _ => none

/-- The credential username of a get reply, when the reply is one. -/
def Reply.getCredUsername : Reply → Option String
  | Reply.getOk d => some d.credUsername
  | _ => none

/-- The credential password of a get reply, when the reply is one. -/
def Reply.getCredPassword : Reply → Option String
  | Reply.getOk d => some d.credPassword
  | _ => none

/-! ### Store lemmas -/

theorem storeFind_storeInsert_self (st : Store) (k : String) (v : ServiceInfo) :
    storeFind (storeInsert st k v) k = some v := by
  induction st with
  | nil => simp [storeInsert, storeFind]
  | cons hd tl ih =>
      obtain ⟨k', v'⟩ := hd
      by_cases h : k' = k
      · simp [storeInsert, storeFind, h]
      · simp [storeInsert, storeFind, h, ih]

theorem storeFind_storeInsert_ne (st : Store) (k k' : String) (v : ServiceInfo)
    (h : k' ≠ k) : storeFind (storeInsert st k v) k' = storeFind st k' := by
  induction st with
  | nil => simp [storeInsert, storeFind, Ne.symm h]
  | cons hd tl ih =>
      obtain ⟨k₀, v₀⟩ := hd
      by_cases h₀ : k₀ = k
      · subst h₀
        simp [storeInsert, storeFind, Ne.symm h]
      · simp [storeInsert, storeFind, h₀, ih]

theorem storeFind_storeErase_self (st : Store) (k : String) :
    storeFind (storeErase st k) k = none := by
  induction st with
  | nil => simp [storeErase, storeFind]
  | cons hd tl ih =>
      obtain ⟨k₀, v₀⟩ := hd
      by_cases h₀ : k₀ = k
      · simp [storeErase, storeFind, h₀, ih]
      · simp [storeErase, storeFind, h₀, ih]

theorem storeFind_storeErase_ne (st : Store) (k k' : String) (h : k' ≠ k) :
    storeFind (storeErase st k) k' = storeFind st k' := by
  induction st with
  | nil => simp [storeErase, storeFind]
  | cons hd tl ih =>
      obtain ⟨k₀, v₀⟩ := hd
      by_cases h₀ : k₀ = k
      · subst h₀
        simp [storeErase, storeFind, Ne.symm h, ih]
      · simp [storeErase, storeFind, h₀, ih]

/-! ### Sample fixtures used by witnesses -/

/-- A concrete PENDING object, as `handleCreate` stores it at time 0. -/
def samplePending : ServiceInfo :=
  { ID := "svc-1"
    ServiceClassId := "ENTERPRISE_250_STANDALONE"
    DatacenterId := "aks-germanywestcentral"
    Name := "ocs-prov-test"
    State := "PENDING"
    MsgVpnName := "test-vpn1"
    EventBrokerVersion := "1.0.0"
    CustomRouterName := "test-router1"
    ClusterName := "test-cluster1"
    MaxSpoolUsage := 20
    Created := 0
    Updated := 0
    ClientUsername := "client-user"
    ClientPassword := "client-passwd" }

/-- A one-object store holding `samplePending`. -/
def sampleStore : Store := [("svc-1", samplePending)]

/-- A well-formed create body with only the required fields. -/
def sampleBody : JObj :=
  [("name", GoValue.vstr "ocs-prov-test"),
   ("serviceClassId", GoValue.vstr "ENTERPRISE_250_STANDALONE"),
   ("datacenterId", GoValue.vstr "aks-germanywestcentral")]

/-- C1: a GET on a stored PENDING resource transitions its stored state to
COMPLETED iff more than 5 seconds have elapsed since the resource's creation
timestamp, and the transition is persisted, so a later GET observes
COMPLETED. -/
theorem C1_get_pending_completes_iff_threshold
    (st : Store) (id : String) (sInfo : ServiceInfo) (now later : Int)
    (hfind : storeFind st id = some sInfo) (hpend : sInfo.State = "PENDING") :
    ((storeFind (handleBrokerServices st now (Request.get id)).1 id).map
        ServiceInfo.State = some "COMPLETED" ↔ pastThreshold now sInfo.Created)
    ∧ (pastThreshold now sInfo.Created →
        (handleBrokerServices (handleBrokerServices st now (Request.get id)).1
            later (Request.get id)).2.getCreationState = some "COMPLETED") := by
  have hmain : handleBrokerServices st now (Request.get id) = handleGet st sInfo id now := by
    simp [handleBrokerServices, hfind]
  rw [hmain]
  by_cases hth : pastThreshold now sInfo.Created
  · constructor
    · simp [handleGet, hpend, hth, storeFind_storeInsert_self]
    · intro _
      simp [handleGet, hpend, hth, handleBrokerServices, storeFind_storeInsert_self,
        Reply.getCreationState]
  · constructor
    · simp [handleGet, hpend, hth, storeFind_storeInsert_self]
    · intro hc
      exact absurd hc hth

/-- C1 witness: for the concrete one-object store `sampleStore` (created at
time 0), a GET at 6.000000001 s completes the resource and a later GET still
answers COMPLETED. -/
theorem C1_witness :
    ((storeFind (handleBrokerServices sampleStore 6000000001
        (Request.get "svc-1")).1 "svc-1").map ServiceInfo.State = some "COMPLETED"
      ↔ pastThreshold 6000000001 samplePending.Created)
    ∧ (pastThreshold 6000000001 samplePending.Created →
        (handleBrokerServices (handleBrokerServices sampleStore 6000000001
            (Request.get "svc-1")).1 7000000000
            (Request.get "svc-1")).2.getCreationState = some "COMPLETED") :=
  C1_get_pending_completes_iff_threshold sampleStore "svc-1" samplePending
    6000000001 7000000000 (by decide) (by decide)

/-- C9: a GET on a PENDING resource always overwrites the stored `Updated`
timestamp with the current time and writes the record back — whether or not
the threshold has passed — leaving every other key untouched, and below the
threshold the written record is exactly the old one with the new `Updated`
(no state transition); a GET on a COMPLETED resource leaves the store
completely unchanged. -/
theorem C9_get_always_writes_back_pending
    (st : Store) (id k : String) (sInfo : ServiceInfo) (now : Int)
    (hfind : storeFind st id = some sInfo) (hk : k ≠ id) :
    (sInfo.State = "PENDING" →
      (storeFind (handleBrokerServices st now (Request.get id)).1 id).map
          ServiceInfo.Updated = some now
      ∧ storeFind (handleBrokerServices st now (Request.get id)).1 k
          = storeFind st k
      ∧ (¬ pastThreshold now sInfo.Created →
          storeFind (handleBrokerServices st now (Request.get id)).1 id
            = some { sInfo with Updated := now }))
    ∧ (sInfo.State = "COMPLETED" →
        (handleBrokerServices st now (Request.get id)).1 = st) := by
  have hmain : handleBrokerServices st now (Request.get id) = handleGet st sInfo id now := by
    simp [handleBrokerServices, hfind]
  rw [hmain]
  constructor
  · intro hpend
    refine ⟨?_, ?_, ?_⟩
    · simp [handleGet, hpend, storeFind_storeInsert_self]
    · simp [handleGet, hpend, storeFind_storeInsert_ne _ _ _ _ hk]
    · intro hth
      simp [handleGet, hpend, hth, storeFind_storeInsert_self]
  · intro hcomp
    have : ¬ sInfo.State = "PENDING" := by
      rw [hcomp]; decide
    simp [handleGet, this]

/-- C9 witness: a GET on the sample PENDING object at 6.000000001 s (past the
threshold) still stamps `Updated`, and one at 1 s (below it) writes back the
record unchanged except for `Updated`; both leave an unrelated key alone. -/
theorem C9_witness :
    ((samplePending.State = "PENDING" →
      (storeFind (handleBrokerServices sampleStore 6000000001
          (Request.get "svc-1")).1 "svc-1").map ServiceInfo.Updated = some 6000000001
      ∧ storeFind (handleBrokerServices sampleStore 6000000001
          (Request.get "svc-1")).1 "other" = storeFind sampleStore "other"
      ∧ (¬ pastThreshold 6000000001 samplePending.Created →
          storeFind (handleBrokerServices sampleStore 6000000001
              (Request.get "svc-1")).1 "svc-1"
            = some { samplePending with Updated := 6000000001 }))
    ∧ (samplePending.State = "COMPLETED" →
        (handleBrokerServices sampleStore 6000000001 (Request.get "svc-1")).1
          = sampleStore))
    ∧ ((samplePending.State = "PENDING" →
      (storeFind (handleBrokerServices sampleStore 1000000000
          (Request.get "svc-1")).1 "svc-1").map ServiceInfo.Updated = some 1000000000
      ∧ storeFind (handleBrokerServices sampleStore 1000000000
          (Request.get "svc-1")).1 "other" = storeFind sampleStore "other"
      ∧ (¬ pastThreshold 1000000000 samplePending.Created →
          storeFind (handleBrokerServices sampleStore 1000000000
              (Request.get "svc-1")).1 "svc-1"
            = some { samplePending with Updated := 1000000000 }))
    ∧ (samplePending.State = "COMPLETED" →
        (handleBrokerServices sampleStore 1000000000 (Request.get "svc-1")).1
          = sampleStore)) :=
  ⟨C9_get_always_writes_back_pending sampleStore "svc-1" "other" samplePending
      6000000001 (by decide) (by decide),
   C9_get_always_writes_back_pending sampleStore "svc-1" "other" samplePending
      1000000000 (by decide) (by decide)⟩

/-- C4: a well-formed PATCH on an existing resource stores back exactly the
old record with the request's name, state PENDING and `Updated` set to the
current time — every other field unchanged — leaves other keys untouched, and
answers 200. -/
theorem C4_patch_updates_only_name_state_updated
    (st : Store) (id k : String) (sInfo : ServiceInfo) (jObj : JObj)
    (nm : String) (now : Int)
    (hfind : storeFind st id = some sInfo)
    (hname : jLook jObj "name" = GoValue.vstr nm) (hk : k ≠ id) :
    storeFind (handleBrokerServices st now (Request.patch id (some jObj))).1 id
        = some { sInfo with Name := nm, State := "PENDING", Updated := now }
    ∧ storeFind (handleBrokerServices st now (Request.patch id (some jObj))).1 k
        = storeFind st k
    ∧ (handleBrokerServices st now (Request.patch id (some jObj))).2.statusCode
        = some 200 := by
  have hmain : handleBrokerServices st now (Request.patch id (some jObj))
      = handlePatch st sInfo id (some jObj) now := by
    simp [handleBrokerServices, hfind]
  rw [hmain]
  refine ⟨?_, ?_, ?_⟩
  · simp [handlePatch, hname, goAssertString, storeFind_storeInsert_self]
  · simp [handlePatch, hname, goAssertString, storeFind_storeInsert_ne _ _ _ _ hk]
  · simp [handlePatch, hname, goAssertString, Reply.statusCode]

/-- C4 witness: renaming the sample object at 2 s changes exactly name, state
and `Updated`, leaves another key alone, and answers 200. -/
theorem C4_witness :
    storeFind (handleBrokerServices sampleStore 2000000000
        (Request.patch "svc-1" (some [("name", GoValue.vstr "renamed")]))).1 "svc-1"
        = some { samplePending with Name := "renamed", State := "PENDING", Updated := 2000000000 }
    ∧ storeFind (handleBrokerServices sampleStore 2000000000
        (Request.patch "svc-1" (some [("name", GoValue.vstr "renamed")]))).1 "other"
        = storeFind sampleStore "other"
    ∧ (handleBrokerServices sampleStore 2000000000
        (Request.patch "svc-1" (some [("name", GoValue.vstr "renamed")]))).2.statusCode
        = some 200 :=
  C4_patch_updates_only_name_state_updated sampleStore "svc-1" "other"
    samplePending [("name", GoValue.vstr "renamed")] "renamed" 2000000000
    (by decide) (by decide) (by decide)

/-- C7: DELETE on a present identity removes it unconditionally (whatever its
state) with a 202 answer and leaves other keys alone; DELETE, GET and PATCH
on an absent identity answer 404 with the store unchanged, so a repeated
DELETE of the same identity answers 404. -/
theorem C7_delete_unconditional_and_absent_is_404
    (st : Store) (id missingId k : String) (sInfo : ServiceInfo)
    (now now₂ later : Int) (body : Option JObj)
    (hfind : storeFind st id = some sInfo)
    (hmiss : storeFind st missingId = none) (hk : k ≠ id) :
    storeFind (handleBrokerServices st now (Request.delete id)).1 id = none
    ∧ (handleBrokerServices st now (Request.delete id)).2.statusCode = some 202
    ∧ storeFind (handleBrokerServices st now (Request.delete id)).1 k
        = storeFind st k
    ∧ handleBrokerServices st now₂ (Request.delete missingId) = (st, Reply.notFound)
    ∧ handleBrokerServices st now₂ (Request.get missingId) = (st, Reply.notFound)
    ∧ handleBrokerServices st now₂ (Request.patch missingId body) = (st, Reply.notFound)
    ∧ Reply.notFound.statusCode = some 404
    ∧ (handleBrokerServices (handleBrokerServices st now (Request.delete id)).1
        later (Request.delete id)).2 = Reply.notFound := by
  have hmain : handleBrokerServices st now (Request.delete id) = handleDelete st sInfo id := by
    simp [handleBrokerServices, hfind]
  refine ⟨?_, ?_, ?_, ?_, ?_, ?_, ?_, ?_⟩
  · rw [hmain]; simp [handleDelete, storeFind_storeErase_self]
  · rw [hmain]; simp [handleDelete, Reply.statusCode]
  · rw [hmain]; simp [handleDelete, storeFind_storeErase_ne _ _ _ hk]
  · simp [handleBrokerServices, hmiss]
  · simp [handleBrokerServices, hmiss]
  · simp [handleBrokerServices, hmiss]
  · rfl
  · rw [hmain]
    simp [handleDelete, handleBrokerServices, storeFind_storeErase_self]

/-- C7 witness: deleting the one object of `sampleStore` empties it with a
202 answer; every method on a missing id answers 404 and a second delete of
the removed id answers 404. -/
theorem C7_witness :
    storeFind (handleBrokerServices sampleStore 0 (Request.delete "svc-1")).1 "svc-1" = none
    ∧ (handleBrokerServices sampleStore 0 (Request.delete "svc-1")).2.statusCode = some 202
    ∧ storeFind (handleBrokerServices sampleStore 0 (Request.delete "svc-1")).1 "other"
        = storeFind sampleStore "other"
    ∧ handleBrokerServices sampleStore 1 (Request.delete "nope") = (sampleStore, Reply.notFound)
    ∧ handleBrokerServices sampleStore 1 (Request.get "nope") = (sampleStore, Reply.notFound)
    ∧ handleBrokerServices sampleStore 1 (Request.patch "nope" (some [("name", GoValue.vstr "x")]))
        = (sampleStore, Reply.notFound)
    ∧ Reply.notFound.statusCode = some 404
    ∧ (handleBrokerServices (handleBrokerServices sampleStore 0 (Request.delete "svc-1")).1
        2 (Request.delete "svc-1")).2 = Reply.notFound :=
  C7_delete_unconditional_and_absent_is_404 sampleStore "svc-1" "nope" "other"
    samplePending 0 1 2 (some [("name", GoValue.vstr "x")])
    (by decide) (by decide) (by decide)

/-- C2 counterexample: create at 0 s, PATCH at 10 s (stored state back to
PENDING), then GET at 11 s — only 1 s after the triggering update, far below
the 5 s threshold — already answers COMPLETED, because the code measures the
delay from `Created`, never from the update. -/
theorem C2_counterexample :
    (handleBrokerServices
      (handleBrokerServices
        (handleBrokerServices [] 0 (Request.create "svc-1" (some sampleBody))).1
        10000000000 (Request.patch "svc-1" (some [("name", GoValue.vstr "renamed")]))).1
      11000000000 (Request.get "svc-1")).2.getCreationState = some "COMPLETED" := by
  decide

/-- C2 amended: after an Update the stored state is PENDING, but the
COMPLETED transition of a later GET is gated solely on the time elapsed since
the creation timestamp — the update time `now` plays no role — so a GET less
than the threshold after an Update observes COMPLETED whenever the resource
was created more than the threshold earlier. -/
theorem C2_amended_threshold_measured_from_creation
    (st : Store) (id : String) (sInfo : ServiceInfo) (jObj : JObj)
    (nm : String) (now now₂ : Int)
    (hfind : storeFind st id = some sInfo)
    (hname : jLook jObj "name" = GoValue.vstr nm) :
    (storeFind (handleBrokerServices st now (Request.patch id (some jObj))).1 id).map
        ServiceInfo.State = some "PENDING"
    ∧ (handleBrokerServices
          (handleBrokerServices st now (Request.patch id (some jObj))).1
          now₂ (Request.get id)).2.getCreationState
        = some (if pastThreshold now₂ sInfo.Created then "COMPLETED" else "PENDING") := by
  have hmain : handleBrokerServices st now (Request.patch id (some jObj))
      = handlePatch st sInfo id (some jObj) now := by
    simp [handleBrokerServices, hfind]
  rw [hmain]
  constructor
  · simp [handlePatch, hname, goAssertString, storeFind_storeInsert_self]
  · by_cases hth : pastThreshold now₂ sInfo.Created
    · simp [handlePatch, hname, goAssertString, handleBrokerServices,
        storeFind_storeInsert_self, handleGet, hth, Reply.getCreationState]
    · simp [handlePatch, hname, goAssertString, handleBrokerServices,
        storeFind_storeInsert_self, handleGet, hth, Reply.getCreationState]

/-- C2 amended witness: patching the sample object (created at 0) at 10 s and
reading at 11 s — the elapsed time since creation, 11 s, is past the
threshold — observes COMPLETED. -/
theorem C2_amended_witness :
    (storeFind (handleBrokerServices sampleStore 10000000000
        (Request.patch "svc-1" (some [("name", GoValue.vstr "renamed")]))).1 "svc-1").map
        ServiceInfo.State = some "PENDING"
    ∧ (handleBrokerServices
          (handleBrokerServices sampleStore 10000000000
            (Request.patch "svc-1" (some [("name", GoValue.vstr "renamed")]))).1
          11000000000 (Request.get "svc-1")).2.getCreationState
        = some (if pastThreshold 11000000000 samplePending.Created then "COMPLETED" else "PENDING") :=
  C2_amended_threshold_measured_from_creation sampleStore "svc-1" samplePending
    [("name", GoValue.vstr "renamed")] "renamed" 10000000000 11000000000
    (by decide) (by decide)

/-- C5 counterexample: a GET 1 s after creation answers state PENDING and yet
already carries the populated service-login credentials assigned at creation,
contradicting the claim that credentials are populated only once COMPLETED. -/
theorem C5_counterexample :
    (handleBrokerServices
        (handleBrokerServices [] 0 (Request.create "svc-1" (some sampleBody))).1
        1000000000 (Request.get "svc-1")).2.getCreationState = some "PENDING"
    ∧ (handleBrokerServices
        (handleBrokerServices [] 0 (Request.create "svc-1" (some sampleBody))).1
        1000000000 (Request.get "svc-1")).2.getCredUsername = some "client-user"
    ∧ (handleBrokerServices
        (handleBrokerServices [] 0 (Request.create "svc-1" (some sampleBody))).1
        1000000000 (Request.get "svc-1")).2.getCredPassword = some "client-passwd" := by
  refine ⟨by decide, by decide, by decide⟩

/-- C5 amended: the credential pair is fixed at creation
("client-user"/"client-passwd") and every GET response carries the stored
credentials verbatim, for PENDING as well as COMPLETED resources; their
presence is unconditional. -/
theorem C5_amended_credentials_always_populated
    (st : Store) (id : String) (sInfo : ServiceInfo) (now : Int)
    (stc : Store) (sid : String) (nowc : Int) (jObj : JObj) (nm sc dc : String)
    (hfind : storeFind st id = some sInfo)
    (hnm : jLook jObj "name" = GoValue.vstr nm)
    (hsc : jLook jObj "serviceClassId" = GoValue.vstr sc)
    (hdc : jLook jObj "datacenterId" = GoValue.vstr dc)
    (hcn : jLook jObj "clusterName" = GoValue.vnull)
    (hvpn : jLook jObj "msgVpnName" = GoValue.vnull)
    (hver : jLook jObj "eventBrokerVersion" = GoValue.vnull)
    (hrn : jLook jObj "customRouterName" = GoValue.vnull)
    (hmsu : jLook jObj "maxSpoolUsage" = GoValue.vnull) :
    (handleBrokerServices st now (Request.get id)).2.getCredUsername
        = some sInfo.ClientUsername
    ∧ (handleBrokerServices st now (Request.get id)).2.getCredPassword
        = some sInfo.ClientPassword
    ∧ (storeFind (handleBrokerServices stc nowc (Request.create sid (some jObj))).1 sid).map
        ServiceInfo.ClientUsername = some "client-user"
    ∧ (storeFind (handleBrokerServices stc nowc (Request.create sid (some jObj))).1 sid).map
        ServiceInfo.ClientPassword = some "client-passwd" := by
  have hmain : handleBrokerServices st now (Request.get id) = handleGet st sInfo id now := by
    simp [handleBrokerServices, hfind]
  refine ⟨?_, ?_, ?_, ?_⟩
  · rw [hmain]
    by_cases hpend : sInfo.State = "PENDING" <;>
      simp [handleGet, hpend, Reply.getCredUsername]
  · rw [hmain]
    by_cases hpend : sInfo.State = "PENDING" <;>
      simp [handleGet, hpend, Reply.getCredPassword]
  · simp [handleBrokerServices, handleCreate, hnm, hsc, hdc, hcn, hvpn, hver, hrn, hmsu,
      goAssertString, orDefault, orDefaultInt32, storeFind_storeInsert_self]
  · simp [handleBrokerServices, handleCreate, hnm, hsc, hdc, hcn, hvpn, hver, hrn, hmsu,
      goAssertString, orDefault, orDefaultInt32, storeFind_storeInsert_self]

/-- C5 amended witness: the sample PENDING store at 1 s answers the stored
credentials, and a concrete create stores the fixed pair. -/
theorem C5_amended_witness :
    (handleBrokerServices sampleStore 1000000000 (Request.get "svc-1")).2.getCredUsername
        = some samplePending.ClientUsername
    ∧ (handleBrokerServices sampleStore 1000000000 (Request.get "svc-1")).2.getCredPassword
        = some samplePending.ClientPassword
    ∧ (storeFind (handleBrokerServices [] 0 (Request.create "svc-2" (some sampleBody))).1 "svc-2").map
        ServiceInfo.ClientUsername = some "client-user"
    ∧ (storeFind (handleBrokerServices [] 0 (Request.create "svc-2" (some sampleBody))).1 "svc-2").map
        ServiceInfo.ClientPassword = some "client-passwd" :=
  C5_amended_credentials_always_populated sampleStore "svc-1" samplePending
    1000000000 [] "svc-2" 0 sampleBody "ocs-prov-test" "ENTERPRISE_250_STANDALONE"
    "aks-germanywestcentral" (by decide) (by decide) (by decide) (by decide)
    (by decide) (by decide) (by decide) (by decide) (by decide)

/-- C3: a create whose body is valid JSON but lacks the required `name` field
does not answer 500 — the nil-interface type assertion `jObj["name"].(string)`
panics instead (no resource is stored, but no HTTP 500 reply is produced
either, contradicting the claim). -/
theorem C3_missing_required_field_panics
    : handleBrokerServices [] 0 (Request.create "svc-1"
        (some [("serviceClassId", GoValue.vstr "ENTERPRISE_250_STANDALONE"),
               ("datacenterId", GoValue.vstr "aks-germanywestcentral")]))
        = ([], Reply.panicked)
    ∧ Reply.panicked.statusCode = none
    ∧ handleBrokerServices [] 0 (Request.create "svc-1" none)
        = ([], Reply.serverError) := by
  refine ⟨by decide, rfl, by decide⟩

/-- `true` on the values for which `orDefault` returns without panicking:
absent/null or a string. -/
def strOrNull : GoValue → Bool
  | GoValue.vnull => true
  | GoValue.vstr _ => true
  | _ => false

/-- `true` on the values for which `orDefaultInt32` returns without
panicking: absent/null or a number. -/
def numOrNull : GoValue → Bool
  | GoValue.vnull => true
  | GoValue.vnum _ => true
  | _ => false

theorem orDefault_isSome_of_strOrNull (v : GoValue) (ds : String)
    (h : strOrNull v = true) : ∃ s, orDefault v ds = some s := by
  cases v <;> simp [strOrNull] at h <;> simp [orDefault]

theorem orDefaultInt32_isSome_of_numOrNull (v : GoValue) (ds : Int)
    (h : numOrNull v = true) : ∃ n, orDefaultInt32 v ds = some n := by
  cases v <;> simp [numOrNull] at h <;> simp [orDefaultInt32]

/-- `handleCreate` either leaves the store unchanged (unmarshal failure or
panic) or inserts under `sid` a record with identity `sid`, state PENDING and
creation timestamp `now`. -/
theorem handleCreate_store_cases (st : Store) (sid : String) (now : Int)
    (body : Option JObj) :
    (handleCreate st sid now body).1 = st
    ∨ ∃ newInfo : ServiceInfo, newInfo.ID = sid ∧ newInfo.State = "PENDING"
        ∧ newInfo.Created = now
        ∧ (handleCreate st sid now body).1 = storeInsert st sid newInfo := by
  unfold handleCreate
  split
  · left; rfl
  · split
    · right; exact ⟨_, rfl, rfl, rfl, rfl⟩
    · left; rfl

/-- No request changes the `ID` field of a stored record: whatever record is
found under a key whose record carried that key as identity still carries it
after any one request is handled. -/
theorem handleStep_preserves_ID
    (st : Store) (now : Int) (req : Request) (id : String)
    (info info' : ServiceInfo)
    (hfind : storeFind st id = some info) (hid : info.ID = id)
    (hafter : storeFind (handleBrokerServices st now req).1 id = some info') :
    info'.ID = id := by
  cases req with
  | create sid body =>
      rcases handleCreate_store_cases st sid now body with hst | ⟨ni, hni, _, _, hst⟩
      · simp only [handleBrokerServices] at hafter
        rw [hst, hfind] at hafter
        exact (Option.some.inj hafter) ▸ hid
      · simp only [handleBrokerServices] at hafter
        rw [hst] at hafter
        by_cases hq : id = sid
        · subst hq
          rw [storeFind_storeInsert_self] at hafter
          exact (Option.some.inj hafter) ▸ hni
        · rw [storeFind_storeInsert_ne _ _ _ _ hq, hfind] at hafter
          exact (Option.some.inj hafter) ▸ hid
  | get gid =>
      simp only [handleBrokerServices] at hafter
      cases hg : storeFind st gid with
      | none =>
          simp only [hg] at hafter
          rw [hfind] at hafter
          exact (Option.some.inj hafter) ▸ hid
      | some sInfo =>
          simp only [hg, handleGet] at hafter
          by_cases hpend : sInfo.State = "PENDING"
          · rw [if_pos hpend] at hafter
            by_cases hq : id = gid
            · subst hq
              rw [hfind] at hg
              have hsi : info = sInfo := Option.some.inj hg
              rw [storeFind_storeInsert_self] at hafter
              have h' := Option.some.inj hafter
              rw [← h', if_pos hpend]
              show sInfo.ID = id
              rw [← hsi]; exact hid
            · rw [storeFind_storeInsert_ne _ _ _ _ hq, hfind] at hafter
              exact (Option.some.inj hafter) ▸ hid
          · rw [if_neg hpend] at hafter
            rw [hfind] at hafter
            exact (Option.some.inj hafter) ▸ hid
  | patch pid body =>
      simp only [handleBrokerServices] at hafter
      cases hp : storeFind st pid with
      | none =>
          simp only [hp] at hafter
          rw [hfind] at hafter
          exact (Option.some.inj hafter) ▸ hid
      | some sInfo =>
          simp only [hp, handlePatch] at hafter
          cases body with
          | none =>
              simp only [] at hafter
              rw [hfind] at hafter
              exact (Option.some.inj hafter) ▸ hid
          | some jObj =>
              cases hn : goAssertString (jLook jObj "name") with
              | none =>
                  simp only [hn] at hafter
                  rw [hfind] at hafter
                  exact (Option.some.inj hafter) ▸ hid
              | some nm =>
                  simp only [hn] at hafter
                  by_cases hq : id = pid
                  · subst hq
                    rw [hfind] at hp
                    have hsi : info = sInfo := Option.some.inj hp
                    rw [storeFind_storeInsert_self] at hafter
                    have h' := Option.some.inj hafter
                    rw [← h']
                    show sInfo.ID = id
                    rw [← hsi]; exact hid
                  · rw [storeFind_storeInsert_ne _ _ _ _ hq, hfind] at hafter
                    exact (Option.some.inj hafter) ▸ hid
  | delete did =>
      simp only [handleBrokerServices] at hafter
      cases hd : storeFind st did with
      | none =>
          simp only [hd] at hafter
          rw [hfind] at hafter
          exact (Option.some.inj hafter) ▸ hid
      | some sInfo =>
          simp only [hd, handleDelete] at hafter
          by_cases hq : id = did
          · subst hq
            rw [storeFind_storeErase_self] at hafter
            exact Option.noConfusion hafter
          · rw [storeFind_storeErase_ne _ _ _ hq, hfind] at hafter
            exact (Option.some.inj hafter) ▸ hid

/-- C6: a create with a well-formed body stores, under the freshly drawn
identity `sid` (assumed distinct from every stored identity — uuid freshness
is environment nondeterminism), a record whose `ID` is `sid`, whose state is
PENDING and whose creation timestamp is the current time, without touching
any other key, answering 202; and no handled request ever changes the `ID`
field a stored record carries for its key. -/
theorem C6_create_fresh_identity_immutable
    (st : Store) (sid : String) (now : Int) (jObj : JObj) (nm sc dc k : String)
    (st₂ : Store) (now₂ : Int) (req : Request) (id₂ : String)
    (info₂ info₃ : ServiceInfo)
    (_hfresh : storeFind st sid = none)
    (hnm : jLook jObj "name" = GoValue.vstr nm)
    (hsc : jLook jObj "serviceClassId" = GoValue.vstr sc)
    (hdc : jLook jObj "datacenterId" = GoValue.vstr dc)
    (hcn : strOrNull (jLook jObj "clusterName") = true)
    (hvpn : strOrNull (jLook jObj "msgVpnName") = true)
    (hver : strOrNull (jLook jObj "eventBrokerVersion") = true)
    (hrn : strOrNull (jLook jObj "customRouterName") = true)
    (hmsu : numOrNull (jLook jObj "maxSpoolUsage") = true)
    (hk : k ≠ sid)
    (h₂find : storeFind st₂ id₂ = some info₂) (h₂id : info₂.ID = id₂)
    (h₂after : storeFind (handleBrokerServices st₂ now₂ req).1 id₂ = some info₃) :
    (storeFind (handleBrokerServices st now (Request.create sid (some jObj))).1 sid).map
        ServiceInfo.ID = some sid
    ∧ (storeFind (handleBrokerServices st now (Request.create sid (some jObj))).1 sid).map
        ServiceInfo.State = some "PENDING"
    ∧ (storeFind (handleBrokerServices st now (Request.create sid (some jObj))).1 sid).map
        ServiceInfo.Created = some now
    ∧ (handleBrokerServices st now (Request.create sid (some jObj))).2.statusCode = some 202
    ∧ storeFind (handleBrokerServices st now (Request.create sid (some jObj))).1 k
        = storeFind st k
    ∧ info₃.ID = id₂ := by
  obtain ⟨cn, hcn'⟩ := orDefault_isSome_of_strOrNull _ "test-cluster1" hcn
  obtain ⟨vpn, hvpn'⟩ := orDefault_isSome_of_strOrNull _ "test-vpn1" hvpn
  obtain ⟨ver, hver'⟩ := orDefault_isSome_of_strOrNull _ "1.0.0" hver
  obtain ⟨rn, hrn'⟩ := orDefault_isSome_of_strOrNull _ "test-router1" hrn
  obtain ⟨msu, hmsu'⟩ := orDefaultInt32_isSome_of_numOrNull _ 20 hmsu
  refine ⟨?_, ?_, ?_, ?_, ?_,
    handleStep_preserves_ID st₂ now₂ req id₂ info₂ info₃ h₂find h₂id h₂after⟩
  · simp [handleBrokerServices, handleCreate, hnm, hsc, hdc, hcn', hvpn', hver', hrn',
      hmsu', goAssertString, storeFind_storeInsert_self]
  · simp [handleBrokerServices, handleCreate, hnm, hsc, hdc, hcn', hvpn', hver', hrn',
      hmsu', goAssertString, storeFind_storeInsert_self]
  · simp [handleBrokerServices, handleCreate, hnm, hsc, hdc, hcn', hvpn', hver', hrn',
      hmsu', goAssertString, storeFind_storeInsert_self]
  · simp [handleBrokerServices, handleCreate, hnm, hsc, hdc, hcn', hvpn', hver', hrn',
      hmsu', goAssertString, Reply.statusCode]
  · simp [handleBrokerServices, handleCreate, hnm, hsc, hdc, hcn', hvpn', hver', hrn',
      hmsu', goAssertString, storeFind_storeInsert_ne _ _ _ _ hk]

/-- C6 witness: a concrete create into the empty store under the fresh id
"svc-2", plus a concrete PATCH on `sampleStore` that keeps the record's
identity "svc-1". -/
theorem C6_witness :
    (storeFind (handleBrokerServices [] 0 (Request.create "svc-2" (some sampleBody))).1 "svc-2").map
        ServiceInfo.ID = some "svc-2"
    ∧ (storeFind (handleBrokerServices [] 0 (Request.create "svc-2" (some sampleBody))).1 "svc-2").map
        ServiceInfo.State = some "PENDING"
    ∧ (storeFind (handleBrokerServices [] 0 (Request.create "svc-2" (some sampleBody))).1 "svc-2").map
        ServiceInfo.Created = some 0
    ∧ (handleBrokerServices [] 0 (Request.create "svc-2" (some sampleBody))).2.statusCode = some 202
    ∧ storeFind (handleBrokerServices [] 0 (Request.create "svc-2" (some sampleBody))).1 "other"
        = storeFind [] "other"
    ∧ ({ samplePending with Name := "x", State := "PENDING", Updated := 3 } : ServiceInfo).ID = "svc-1" :=
  C6_create_fresh_identity_immutable [] "svc-2" 0 sampleBody "ocs-prov-test"
    "ENTERPRISE_250_STANDALONE" "aks-germanywestcentral" "other"
    sampleStore 3 (Request.patch "svc-1" (some [("name", GoValue.vstr "x")])) "svc-1"
    samplePending { samplePending with Name := "x", State := "PENDING", Updated := 3 }
    (by decide) (by decide) (by decide) (by decide) (by decide) (by decide)
    (by decide) (by decide) (by decide) (by decide) (by decide) (by decide)
    (by decide)

/-- C10: in a well-formed create, every optional string field that is absent
or the empty string is stored with its fixed default (clusterName
"test-cluster1", msgVpnName "test-vpn1", eventBrokerVersion "1.0.0",
customRouterName "test-router1"), and an absent maxSpoolUsage is stored
as 20. -/
theorem C10_create_optional_field_defaults
    (st : Store) (sid : String) (now : Int) (jObj : JObj) (nm sc dc : String)
    (hnm : jLook jObj "name" = GoValue.vstr nm)
    (hsc : jLook jObj "serviceClassId" = GoValue.vstr sc)
    (hdc : jLook jObj "datacenterId" = GoValue.vstr dc)
    (hcn : strOrNull (jLook jObj "clusterName") = true)
    (hvpn : strOrNull (jLook jObj "msgVpnName") = true)
    (hver : strOrNull (jLook jObj "eventBrokerVersion") = true)
    (hrn : strOrNull (jLook jObj "customRouterName") = true)
    (hmsu : numOrNull (jLook jObj "maxSpoolUsage") = true) :
    ((jLook jObj "clusterName" = GoValue.vnull ∨ jLook jObj "clusterName" = GoValue.vstr "") →
      (storeFind (handleBrokerServices st now (Request.create sid (some jObj))).1 sid).map
          ServiceInfo.ClusterName = some "test-cluster1")
    ∧ ((jLook jObj "msgVpnName" = GoValue.vnull ∨ jLook jObj "msgVpnName" = GoValue.vstr "") →
      (storeFind (handleBrokerServices st now (Request.create sid (some jObj))).1 sid).map
          ServiceInfo.MsgVpnName = some "test-vpn1")
    ∧ ((jLook jObj "eventBrokerVersion" = GoValue.vnull ∨ jLook jObj "eventBrokerVersion" = GoValue.vstr "") →
      (storeFind (handleBrokerServices st now (Request.create sid (some jObj))).1 sid).map
          ServiceInfo.EventBrokerVersion = some "1.0.0")
    ∧ ((jLook jObj "customRouterName" = GoValue.vnull ∨ jLook jObj "customRouterName" = GoValue.vstr "") →
      (storeFind (handleBrokerServices st now (Request.create sid (some jObj))).1 sid).map
          ServiceInfo.CustomRouterName = some "test-router1")
    ∧ (jLook jObj "maxSpoolUsage" = GoValue.vnull →
      (storeFind (handleBrokerServices st now (Request.create sid (some jObj))).1 sid).map
          ServiceInfo.MaxSpoolUsage = some 20) := by
  obtain ⟨cn, hcn'⟩ := orDefault_isSome_of_strOrNull _ "test-cluster1" hcn
  obtain ⟨vpn, hvpn'⟩ := orDefault_isSome_of_strOrNull _ "test-vpn1" hvpn
  obtain ⟨ver, hver'⟩ := orDefault_isSome_of_strOrNull _ "1.0.0" hver
  obtain ⟨rn, hrn'⟩ := orDefault_isSome_of_strOrNull _ "test-router1" hrn
  obtain ⟨msu, hmsu'⟩ := orDefaultInt32_isSome_of_numOrNull _ 20 hmsu
  refine ⟨?_, ?_, ?_, ?_, ?_⟩
  · intro hcase
    have hd : orDefault (jLook jObj "clusterName") "test-cluster1" = some "test-cluster1" := by
      rcases hcase with h | h <;> rw [h] <;> rfl
    simp [handleBrokerServices, handleCreate, hnm, hsc, hdc, hd, hvpn', hver', hrn',
      hmsu', goAssertString, storeFind_storeInsert_self]
  · intro hcase
    have hd : orDefault (jLook jObj "msgVpnName") "test-vpn1" = some "test-vpn1" := by
      rcases hcase with h | h <;> rw [h] <;> rfl
    simp [handleBrokerServices, handleCreate, hnm, hsc, hdc, hcn', hd, hver', hrn',
      hmsu', goAssertString, storeFind_storeInsert_self]
  · intro hcase
    have hd : orDefault (jLook jObj "eventBrokerVersion") "1.0.0" = some "1.0.0" := by
      rcases hcase with h | h <;> rw [h] <;> rfl
    simp [handleBrokerServices, handleCreate, hnm, hsc, hdc, hcn', hvpn', hd, hrn',
      hmsu', goAssertString, storeFind_storeInsert_self]
  · intro hcase
    have hd : orDefault (jLook jObj "customRouterName") "test-router1" = some "test-router1" := by
      rcases hcase with h | h <;> rw [h] <;> rfl
    simp [handleBrokerServices, handleCreate, hnm, hsc, hdc, hcn', hvpn', hver', hd,
      hmsu', goAssertString, storeFind_storeInsert_self]
  · intro hcase
    have hd : orDefaultInt32 (jLook jObj "maxSpoolUsage") 20 = some 20 := by
      rw [hcase]; rfl
    simp [handleBrokerServices, handleCreate, hnm, hsc, hdc, hcn', hvpn', hver', hrn',
      hd, goAssertString, storeFind_storeInsert_self]

/-- C10 witness: creating from `sampleBody`, whose optional fields are all
absent, stores every default. -/
theorem C10_witness :
    ((jLook sampleBody "clusterName" = GoValue.vnull ∨ jLook sampleBody "clusterName" = GoValue.vstr "") →
      (storeFind (handleBrokerServices [] 0 (Request.create "svc-1" (some sampleBody))).1 "svc-1").map
          ServiceInfo.ClusterName = some "test-cluster1")
    ∧ ((jLook sampleBody "msgVpnName" = GoValue.vnull ∨ jLook sampleBody "msgVpnName" = GoValue.vstr "") →
      (storeFind (handleBrokerServices [] 0 (Request.create "svc-1" (some sampleBody))).1 "svc-1").map
          ServiceInfo.MsgVpnName = some "test-vpn1")
    ∧ ((jLook sampleBody "eventBrokerVersion" = GoValue.vnull ∨ jLook sampleBody "eventBrokerVersion" = GoValue.vstr "") →
      (storeFind (handleBrokerServices [] 0 (Request.create "svc-1" (some sampleBody))).1 "svc-1").map
          ServiceInfo.EventBrokerVersion = some "1.0.0")
    ∧ ((jLook sampleBody "customRouterName" = GoValue.vnull ∨ jLook sampleBody "customRouterName" = GoValue.vstr "") →
      (storeFind (handleBrokerServices [] 0 (Request.create "svc-1" (some sampleBody))).1 "svc-1").map
          ServiceInfo.CustomRouterName = some "test-router1")
    ∧ (jLook sampleBody "maxSpoolUsage" = GoValue.vnull →
      (storeFind (handleBrokerServices [] 0 (Request.create "svc-1" (some sampleBody))).1 "svc-1").map
          ServiceInfo.MaxSpoolUsage = some 20) :=
  C10_create_optional_field_defaults [] "svc-1" 0 sampleBody "ocs-prov-test"
    "ENTERPRISE_250_STANDALONE" "aks-germanywestcentral"
    (by decide) (by decide) (by decide) (by decide) (by decide) (by decide)
    (by decide) (by decide)

/-!
### Provider configuration (`internal/provider/provider.go`, `Configure`)

`Configure` is modelled after the unknown-value guard: each `types.String`
attribute is either null (`none`) or a known string.  `os.Getenv` returns ""
for an unset variable, so the environment is four plain strings.  Go's
`time.ParseDuration` is standard-library code outside this repository; it is
taken as a parameter `parseDuration : String → Option Int` (nanoseconds on
success, `none` on a parse error), which is all the claims about `Configure`
depend on.  The HTTP client handle is opaque and omitted from the provider
data; diagnostics are accumulated exactly where the source adds them and the
function returns them instead of building a client when any exist.
-/

/-- `clusterManagerProviderModel` from provider.go: the four configuration
attributes, null or known. -/
structure clusterManagerProviderModel where
  Host : Option String
  BearerToken : Option String
  PollingTimeoutDuration : Option String
  PollingIntervalDuration : Option String
  deriving DecidableEq, Repr

/-- The environment variables `Configure` reads (empty string = unset). -/
structure ConfigEnv where
  MISSIONCONTROL_HOST : String
  MISSIONCONTROL_TOKEN : String
  POLLING_INTERVAL_DURATION : String
  POLLING_TIMEOUT_DURATION : String
  deriving DecidableEq, Repr

/-- `CMProviderData` from provider.go, without the opaque client handle. -/
structure CMProviderData where
  BearerToken : String
  PollingIntervalDuration : Int
  PollingTimeoutDuration : Int
  deriving DecidableEq, Repr

/-- The attribute errors `Configure` can add to its diagnostics. -/
inductive ConfigDiag where
  | missingHost
  | missingToken
  | invalidPollingInterval
  | invalidPollingTimeout
  deriving DecidableEq, Repr

/-- The polling-interval string `Configure` parses: environment value,
overridden by a non-null configuration value, with default "20s" when the
result is empty. -/
def resolvedPollingIntervalStr (env : ConfigEnv)
    (config : clusterManagerProviderModel) : String :=
  let s := match config.PollingIntervalDuration with
    | some v => v
    | none => env.POLLING_INTERVAL_DURATION
  if s = "" then "20s" else s

/-- The polling-timeout string `Configure` parses: environment value,
overridden by a non-null configuration value, with default "30m" when the
result is empty. -/
def resolvedPollingTimeoutStr (env : ConfigEnv)
    (config : clusterManagerProviderModel) : String :=
  let s := match config.PollingTimeoutDuration with
    | some v => v
    | none => env.POLLING_TIMEOUT_DURATION
  if s = "" then "30m" else s

/-- `Configure` from provider.go, from the env-default block to the provider
data: resolve host, token and the two polling strings, add a diagnostic for
an empty host or token and for each unparseable duration, and return either
the diagnostics or the provider data. -/
def Configure (parseDuration : String → Option Int) (env : ConfigEnv)
    (config : clusterManagerProviderModel) :
    Except (List ConfigDiag) CMProviderData :=
  let host := match config.Host with
    | some v => v
    | none => env.MISSIONCONTROL_HOST
  let bearerToken := match config.BearerToken with
    | some v => v
    | none => env.MISSIONCONTROL_TOKEN
  let pollingIntervalDurationStr := resolvedPollingIntervalStr env config
  let pollingTimeoutDurationStr := resolvedPollingTimeoutStr env config
  let diags :=
    (if host = "" then [ConfigDiag.missingHost] else [])
    ++ (if bearerToken = "" then [ConfigDiag.missingToken] else [])
    ++ (match parseDuration pollingIntervalDurationStr with
        | none => [ConfigDiag.invalidPollingInterval]
        | some _ => [])
    ++ (match parseDuration pollingTimeoutDurationStr with
        | none => [ConfigDiag.invalidPollingTimeout]
        | some _ => [])
  if diags.isEmpty then
    Except.ok
      { BearerToken := bearerToken
        PollingIntervalDuration := (parseDuration pollingIntervalDurationStr).getD 0
        PollingTimeoutDuration := (parseDuration pollingTimeoutDurationStr).getD 0 }
  else Except.error diags

/-- `true` exactly on `Except.ok` values. -/
def exceptIsOk {ε α : Type} : Except ε α → Bool
  | Except.ok _ => true
  | Except.error _ => false


/-- C8: the polling interval and timeout strings come from
POLLING_INTERVAL_DURATION / POLLING_TIMEOUT_DURATION, a non-null
configuration value takes precedence, an empty resolution falls back to the
defaults "20s" and "30m", an unparseable resolved duration makes `Configure`
return diagnostics instead of provider data, and on success the provider
data carries exactly the parsed resolved durations. -/
theorem C8_polling_duration_resolution
    (parseDuration : String → Option Int) (env : ConfigEnv)
    (config : clusterManagerProviderModel) (vI vT : String) (d : CMProviderData) :
    (config.PollingIntervalDuration = none →
      resolvedPollingIntervalStr env config
        = (if env.POLLING_INTERVAL_DURATION = "" then "20s" else env.POLLING_INTERVAL_DURATION))
    ∧ (config.PollingIntervalDuration = some vI → vI ≠ "" →
      resolvedPollingIntervalStr env config = vI)
    ∧ (config.PollingIntervalDuration = some "" →
      resolvedPollingIntervalStr env config = "20s")
    ∧ (config.PollingTimeoutDuration = none →
      resolvedPollingTimeoutStr env config
        = (if env.POLLING_TIMEOUT_DURATION = "" then "30m" else env.POLLING_TIMEOUT_DURATION))
    ∧ (config.PollingTimeoutDuration = some vT → vT ≠ "" →
      resolvedPollingTimeoutStr env config = vT)
    ∧ (config.PollingTimeoutDuration = some "" →
      resolvedPollingTimeoutStr env config = "30m")
    ∧ (parseDuration (resolvedPollingIntervalStr env config) = none →
      exceptIsOk (Configure parseDuration env config) = false)
    ∧ (parseDuration (resolvedPollingTimeoutStr env config) = none →
      exceptIsOk (Configure parseDuration env config) = false)
    ∧ (Configure parseDuration env config = Except.ok d →
      parseDuration (resolvedPollingIntervalStr env config) = some d.PollingIntervalDuration
      ∧ parseDuration (resolvedPollingTimeoutStr env config) = some d.PollingTimeoutDuration) := by
  refine ⟨?_, ?_, ?_, ?_, ?_, ?_, ?_, ?_, ?_⟩
  · intro h; simp [resolvedPollingIntervalStr, h]
  · intro h hne; simp [resolvedPollingIntervalStr, h, hne]
  · intro h; simp [resolvedPollingIntervalStr, h]
  · intro h; simp [resolvedPollingTimeoutStr, h]
  · intro h hne; simp [resolvedPollingTimeoutStr, h, hne]
  · intro h; simp [resolvedPollingTimeoutStr, h]
  · intro h
    by_cases hH : (match config.Host with | some v => v | none => env.MISSIONCONTROL_HOST) = "" <;>
    by_cases hB : (match config.BearerToken with | some v => v | none => env.MISSIONCONTROL_TOKEN) = "" <;>
    cases hPT : parseDuration (resolvedPollingTimeoutStr env config) <;>
    simp [Configure, exceptIsOk, hH, hB, h, hPT, List.isEmpty]
  · intro h
    by_cases hH : (match config.Host with | some v => v | none => env.MISSIONCONTROL_HOST) = "" <;>
    by_cases hB : (match config.BearerToken with | some v => v | none => env.MISSIONCONTROL_TOKEN) = "" <;>
    cases hPI : parseDuration (resolvedPollingIntervalStr env config) <;>
    simp [Configure, exceptIsOk, hH, hB, h, hPI, List.isEmpty]
  · intro h
    cases hPI : parseDuration (resolvedPollingIntervalStr env config) with
    | none =>
        exfalso
        by_cases hH : (match config.Host with | some v => v | none => env.MISSIONCONTROL_HOST) = "" <;>
        by_cases hB : (match config.BearerToken with | some v => v | none => env.MISSIONCONTROL_TOKEN) = "" <;>
        cases hPT : parseDuration (resolvedPollingTimeoutStr env config) <;>
        simp [Configure, hH, hB, hPI, List.isEmpty, hPT] at h
    | some i =>
      cases hPT : parseDuration (resolvedPollingTimeoutStr env config) with
      | none =>
          exfalso
          by_cases hH : (match config.Host with | some v => v | none => env.MISSIONCONTROL_HOST) = "" <;>
          by_cases hB : (match config.BearerToken with | some v => v | none => env.MISSIONCONTROL_TOKEN) = "" <;>
          simp [Configure, hH, hB, hPI, List.isEmpty, hPT] at h
      | some t =>
          by_cases hH : (match config.Host with | some v => v | none => env.MISSIONCONTROL_HOST) = "" <;>
          by_cases hB : (match config.BearerToken with | some v => v | none => env.MISSIONCONTROL_TOKEN) = "" <;>
          simp [Configure, hH, hB, hPI, List.isEmpty, hPT] at h <;>
          cases d <;>
          simp [CMProviderData.mk.injEq] at h <;>
          simp [hPI, hPT, h]

/-- A concrete stand-in for `time.ParseDuration`, defined on the duration
strings the C8 witness exercises. -/
def testParseDuration (s : String) : Option Int :=
  if s = "5s" then some 5000000000
  else if s = "7m" then some 420000000000
  else if s = "20s" then some 20000000000
  else if s = "30m" then some 1800000000000
  else none

/-- The environment of the C8 witness: host and token set, polling interval
unset, polling timeout "7m". -/
def testEnv : ConfigEnv :=
  { MISSIONCONTROL_HOST := "https://api.example"
    MISSIONCONTROL_TOKEN := "token-1"
    POLLING_INTERVAL_DURATION := ""
    POLLING_TIMEOUT_DURATION := "7m" }

/-- The configuration of the C8 witness: interval "5s" configured (overriding
the unset environment variable), timeout left null (falling through to the
environment variable). -/
def testConfig : clusterManagerProviderModel :=
  { Host := some "https://api.example"
    BearerToken := some "token-1"
    PollingTimeoutDuration := none
    PollingIntervalDuration := some "5s" }

/-- The provider data `Configure` produces for `testEnv`/`testConfig`. -/
def testProviderData : CMProviderData :=
  { BearerToken := "token-1"
    PollingIntervalDuration := 5000000000
    PollingTimeoutDuration := 420000000000 }

/-- C8 witness: with `testEnv`/`testConfig` the interval resolves to the
configured "5s", the timeout to the environment's "7m", and `Configure`
succeeds with exactly those parsed durations. -/
theorem C8_witness :
    (testConfig.PollingIntervalDuration = none →
      resolvedPollingIntervalStr testEnv testConfig
        = (if testEnv.POLLING_INTERVAL_DURATION = "" then "20s" else testEnv.POLLING_INTERVAL_DURATION))
    ∧ (testConfig.PollingIntervalDuration = some "5s" → "5s" ≠ "" →
      resolvedPollingIntervalStr testEnv testConfig = "5s")
    ∧ (testConfig.PollingIntervalDuration = some "" →
      resolvedPollingIntervalStr testEnv testConfig = "20s")
    ∧ (testConfig.PollingTimeoutDuration = none →
      resolvedPollingTimeoutStr testEnv testConfig
        = (if testEnv.POLLING_TIMEOUT_DURATION = "" then "30m" else testEnv.POLLING_TIMEOUT_DURATION))
    ∧ (testConfig.PollingTimeoutDuration = some "7m" → "7m" ≠ "" →
      resolvedPollingTimeoutStr testEnv testConfig = "7m")
    ∧ (testConfig.PollingTimeoutDuration = some "" →
      resolvedPollingTimeoutStr testEnv testConfig = "30m")
    ∧ (testParseDuration (resolvedPollingIntervalStr testEnv testConfig) = none →
      exceptIsOk (Configure testParseDuration testEnv testConfig) = false)
    ∧ (testParseDuration (resolvedPollingTimeoutStr testEnv testConfig) = none →
      exceptIsOk (Configure testParseDuration testEnv testConfig) = false)
    ∧ (Configure testParseDuration testEnv testConfig = Except.ok testProviderData →
      testParseDuration (resolvedPollingIntervalStr testEnv testConfig)
          = some testProviderData.PollingIntervalDuration
      ∧ testParseDuration (resolvedPollingTimeoutStr testEnv testConfig)
          = some testProviderData.PollingTimeoutDuration) :=
  C8_polling_duration_resolution testParseDuration testEnv testConfig "5s" "7m"
    testProviderData
